import Mathlib

/-!
Shallow embedding of the MediFlow in-memory `DatabaseService`
(src/unnamed/part_005 in the repository): an in-memory clinical-data
repository manipulating duck-typed JavaScript records.

JavaScript objects are modelled as association lists of string keys and
dynamic values (`Obj`); object-literal construction with spreads is
modelled with `Obj.put` / `Obj.spread` (a later binding overwrites an
earlier one in place, a new key is appended, exactly as a JS object
literal behaves on duplicate keys).  `new Date()` / `Date.now()` is an
explicit `now : Nat` parameter threaded through the operations; the
concrete `Date` literals of the seed data are encoded as opaque numeric
stamps (`yyyymmdd`), which no operation ever inspects.  A method that can
`Promise.reject(new Error(msg))` returns `Except String`; a mutating
method additionally returns the post-state of the store.
-/

namespace MediFlow

/-- A JavaScript runtime value, as far as the data layer distinguishes them. -/
inductive Val where
  | str (s : String)
  | num (n : Int)
  | nan
  | date (t : Nat)
  | bool (b : Bool)
  | null
  | undef
deriving DecidableEq, Repr

/-- A JavaScript object: ordered key/value bindings. -/
abbrev Obj := List (String × Val)

/-- Property read `o.k`: first binding of the key (a real JS object never
has two bindings of one key); a missing key reads as `undefined`. -/
def Obj.get : Obj → String → Option Val
  | [], _ => none
  | (k0, v) :: rest, k => if k0 = k then some v else Obj.get rest k

/-- `o.k` with the JS "missing property is undefined" behaviour. -/
def Obj.fetch (o : Obj) (k : String) : Val :=
  (o.get k).getD Val.undef

/-- Writing key `k` in an object literal after `o` has been built:
overwrite the existing binding in place, or append a new one. -/
def Obj.put : Obj → String → Val → Obj
  | [], k, v => [(k, v)]
  | (k0, v0) :: rest, k, v =>
    if k0 = k then (k0, v) :: rest else (k0, v0) :: Obj.put rest k v

/-- Object spread `\x7b ...o, ...u \x7d`: write every binding of `u` over `o`,
in order. -/
def Obj.spread (o u : Obj) : Obj :=
  u.foldl (fun acc p => Obj.put acc p.1 p.2) o

/-- The binding of `k` that survives when `u` is spread: the last one. -/
def Obj.lookupLast : Obj → String → Option Val
  | [], _ => none
  | (k0, v0) :: rest, k =>
    match Obj.lookupLast rest k with
    | some v => some v
    | none => if k0 = k then some v0 else none

/-- A well-formed JS object has no duplicate keys. -/
def Obj.NoDupKeys (o : Obj) : Prop :=
  (o.map Prod.fst).Nodup

instance (o : Obj) : Decidable o.NoDupKeys := by
  unfold Obj.NoDupKeys; infer_instance

/-- JS truthiness, as used by `x || default`. -/
def Val.truthy : Val → Bool
  | .str s => s ≠ ""
  | .num n => n ≠ 0
  | .nan => false
  | .date _ => true
  | .bool b => b
  | .null => false
  | .undef => false

/-- JS `String(x)` (the rendering of a `Date` is never observed by any
property below, so its exact text is immaterial). -/
def Val.jsString : Val → String
  | .str s => s
  | .num n => toString n
  | .nan => "NaN"
  | .date t => "Date:" ++ toString t
  | .bool b => if b then "true" else "false"
  | .null => "null"
  | .undef => "undefined"

/-- JS strict equality `o.k === v` as a Bool (an absent property is
`undefined`, which is `===` to no string or number id). -/
def Obj.fieldIs (o : Obj) (k : String) (v : Val) : Bool :=
  decide (o.get k = some v)

/-- An audit-log record, as assembled by `logAudit`. -/
structure AuditEntry where
  id : Nat
  entityType : String
  entityId : String
  action : String
  userId : Val
  timestamp : Nat
deriving DecidableEq, Repr

/-- The in-memory store `this.db`. -/
structure DB where
  patients : List Obj
  allergies : List Obj
  chronicConditions : List Obj
  clinicalNotes : List Obj
  workflows : List Obj
  tasks : List Obj
  appointments : List Obj
  referrals : List Obj
  auditLog : List AuditEntry
deriving DecidableEq, Repr

/-- `logAudit(entityType, entityId, action, userId)`: append an entry with
id `auditLog.length + 1` and the current timestamp.  `entityId` is the
already-`String(...)`-converted identifier. -/
def logAudit (db : DB) (entityType entityId action : String) (userId : Val)
    (now : Nat) : DB :=
  { db with auditLog :=
      db.auditLog ++ [⟨db.auditLog.length + 1, entityType, entityId, action, userId, now⟩] }

/-- JS `findIndex` (`some i` in place of `-1`). -/
def findIdxJS (f : α → Bool) : List α → Option Nat
  | [] => none
  | a :: as => if f a then some 0 else (findIdxJS f as).map (fun n => n + 1)

/-- JS `find`. -/
def findJS (f : α → Bool) : List α → Option α
  | [] => none
  | a :: as => if f a then some a else findJS f as

/-- Did a promise-returning call resolve (as opposed to reject)? -/
def isOkE : Except ε α → Bool
  | .ok _ => true
  | .error _ => false

/-! ## Patient operations -/

/-- The object `getPatientById` resolves with: the patient record spread
together with its six dependent sequences. -/
structure PatientView where
  record : Obj
  allergies : List Obj
  chronicConditions : List Obj
  clinicalNotes : List Obj
  tasks : List Obj
  appointments : List Obj
  referrals : List Obj
deriving DecidableEq, Repr

/-- `getPatientById(patientId)`: reject with "Patient not found" when no
record matches, otherwise resolve the patient merged with the dependent
records filtered by `patientId`.  A pure read: it never writes `this.db`. -/
def getPatientById (db : DB) (patientId : String) : Except String PatientView :=
  match findJS (fun p => p.fieldIs "id" (.str patientId)) db.patients with
  | none => .error "Patient not found"
  | some patient =>
    .ok { record := patient
          allergies := db.allergies.filter (fun a => a.fieldIs "patientId" (.str patientId))
          chronicConditions := db.chronicConditions.filter (fun c => c.fieldIs "patientId" (.str patientId))
          clinicalNotes := db.clinicalNotes.filter (fun n => n.fieldIs "patientId" (.str patientId))
          tasks := db.tasks.filter (fun t => t.fieldIs "patientId" (.str patientId))
          appointments := db.appointments.filter (fun a => a.fieldIs "patientId" (.str patientId))
          referrals := db.referrals.filter (fun r => r.fieldIs "patientId" (.str patientId)) }

/-- `createPatient(patientData)`: build
`\x7b id: P${Date.now()}, ...patientData, status: active, createdAt: now, updatedAt: now \x7d`,
push it, audit CREATE, resolve the new record. -/
def createPatient (db : DB) (patientData : Obj) (now : Nat) : Obj × DB :=
  let newPatient :=
    Obj.put (Obj.put (Obj.put (Obj.spread [("id", Val.str ("P" ++ toString now))] patientData)
      "status" (.str "active")) "createdAt" (.date now)) "updatedAt" (.date now)
  let db1 := { db with patients := db.patients ++ [newPatient] }
  let db2 := logAudit db1 "Patient" (Obj.fetch newPatient "id").jsString "CREATE" (.str "system") now
  (newPatient, db2)

/-- `updatePatient(patientId, updates)`: reject when absent; otherwise
replace the record at the found index by
`\x7b ...existing, ...updates, updatedAt: now \x7d`, audit UPDATE, resolve the
merged record. -/
def updatePatient (db : DB) (patientId : String) (updates : Obj) (now : Nat) :
    Except String Obj × DB :=
  match findIdxJS (fun p => p.fieldIs "id" (.str patientId)) db.patients with
  | none => (.error "Patient not found", db)
  | some index =>
    let merged := Obj.put (Obj.spread (db.patients.getD index []) updates) "updatedAt" (.date now)
    let db1 := { db with patients := db.patients.set index merged }
    let db2 := logAudit db1 "Patient" patientId "UPDATE" (.str "system") now
    (.ok merged, db2)

/-- `deletePatient(patientId)`: reject when absent; otherwise splice the
patient out, filter every dependent sequence down to the records whose
`patientId` differs, audit one DELETE, resolve `\x7b success: true \x7d`. -/
def deletePatient (db : DB) (patientId : String) (now : Nat) :
    Except String Obj × DB :=
  match findIdxJS (fun p => p.fieldIs "id" (.str patientId)) db.patients with
  | none => (.error "Patient not found", db)
  | some index =>
    let db1 : DB :=
      { db with
        patients := db.patients.eraseIdx index
        allergies := db.allergies.filter (fun a => !(a.fieldIs "patientId" (.str patientId)))
        chronicConditions := db.chronicConditions.filter (fun c => !(c.fieldIs "patientId" (.str patientId)))
        clinicalNotes := db.clinicalNotes.filter (fun n => !(n.fieldIs "patientId" (.str patientId)))
        tasks := db.tasks.filter (fun t => !(t.fieldIs "patientId" (.str patientId)))
        appointments := db.appointments.filter (fun a => !(a.fieldIs "patientId" (.str patientId)))
        referrals := db.referrals.filter (fun r => !(r.fieldIs "patientId" (.str patientId))) }
    let db2 := logAudit db1 "Patient" patientId "DELETE" (.str "system") now
    (.ok [("success", .bool true)], db2)

/-! ## Clinical-note operations -/

/-- `createClinicalNote(noteData)`: id is `clinicalNotes.length + 1`,
status defaults through `noteData.status || draft`, audit CREATE as
`noteData.createdBy || system`. -/
def createClinicalNote (db : DB) (noteData : Obj) (now : Nat) : Obj × DB :=
  let statusVal := if (Obj.fetch noteData "status").truthy then Obj.fetch noteData "status" else .str "draft"
  let newNote :=
    Obj.put (Obj.put (Obj.put (Obj.spread [("id", Val.num (db.clinicalNotes.length + 1))] noteData)
      "status" statusVal) "createdAt" (.date now)) "updatedAt" (.date now)
  let userVal := if (Obj.fetch noteData "createdBy").truthy then Obj.fetch noteData "createdBy" else .str "system"
  let db1 := { db with clinicalNotes := db.clinicalNotes ++ [newNote] }
  let db2 := logAudit db1 "ClinicalNote" (Obj.fetch newNote "id").jsString "CREATE" userVal now
  (newNote, db2)

/-- `updateClinicalNote(noteId, updates)`: reject when absent; otherwise
shallow-merge with a fresh `updatedAt`, audit UPDATE, resolve the record. -/
def updateClinicalNote (db : DB) (noteId : Int) (updates : Obj) (now : Nat) :
    Except String Obj × DB :=
  match findIdxJS (fun n => n.fieldIs "id" (.num noteId)) db.clinicalNotes with
  | none => (.error "Clinical note not found", db)
  | some index =>
    let merged := Obj.put (Obj.spread (db.clinicalNotes.getD index []) updates) "updatedAt" (.date now)
    let db1 := { db with clinicalNotes := db.clinicalNotes.set index merged }
    let db2 := logAudit db1 "ClinicalNote" (toString noteId) "UPDATE" (.str "system") now
    (.ok merged, db2)

/-! ## Allergy and chronic-condition operations -/

/-- `addAllergy(allergyData)`: id is `allergies.length + 1`, status forced
to active after the spread, audit CREATE. -/
def addAllergy (db : DB) (allergyData : Obj) (now : Nat) : Obj × DB :=
  let newAllergy :=
    Obj.put (Obj.spread [("id", Val.num (db.allergies.length + 1))] allergyData)
      "status" (.str "active")
  let db1 := { db with allergies := db.allergies ++ [newAllergy] }
  let db2 := logAudit db1 "Allergy" (Obj.fetch newAllergy "id").jsString "CREATE" (.str "system") now
  (newAllergy, db2)

/-- `removeAllergy(allergyId)`: reject when absent; otherwise splice the
record out and audit DELETE. -/
def removeAllergy (db : DB) (allergyId : Int) (now : Nat) :
    Except String Obj × DB :=
  match findIdxJS (fun a => a.fieldIs "id" (.num allergyId)) db.allergies with
  | none => (.error "Allergy not found", db)
  | some index =>
    let db1 := { db with allergies := db.allergies.eraseIdx index }
    let db2 := logAudit db1 "Allergy" (toString allergyId) "DELETE" (.str "system") now
    (.ok [("success", .bool true)], db2)

/-- `addChronicCondition(conditionData)`: id is
`chronicConditions.length + 1`, status forced to active, audit CREATE. -/
def addChronicCondition (db : DB) (conditionData : Obj) (now : Nat) : Obj × DB :=
  let newCondition :=
    Obj.put (Obj.spread [("id", Val.num (db.chronicConditions.length + 1))] conditionData)
      "status" (.str "active")
  let db1 := { db with chronicConditions := db.chronicConditions ++ [newCondition] }
  let db2 := logAudit db1 "ChronicCondition" (Obj.fetch newCondition "id").jsString "CREATE" (.str "system") now
  (newCondition, db2)

/-! ## Workflow operations -/

/-- `getWorkflowById(workflowId)`: reject with "Workflow not found" when
absent; a pure read. -/
def getWorkflowById (db : DB) (workflowId : Int) : Except String Obj :=
  match findJS (fun w => w.fieldIs "id" (.num workflowId)) db.workflows with
  | none => .error "Workflow not found"
  | some workflow => .ok workflow

/-- JS `workflow.usageCount++` on the record found by id (in-place
mutation of the array element; `undefined++` would leave `NaN`). -/
def bumpUsage (w : Obj) : Obj :=
  match Obj.get w "usageCount" with
  | some (.num n) => Obj.put w "usageCount" (.num (n + 1))
  | _ => Obj.put w "usageCount" .nan

/-- `incrementWorkflowUsage(workflowId)`: when the id is absent, resolve
`undefined` (modelled `none`) without touching the store or the audit log;
otherwise bump the counter of the first matching record, audit UPDATE, and
resolve the mutated record. -/
def incrementWorkflowUsage (db : DB) (workflowId : Int) (now : Nat) :
    Option Obj × DB :=
  match findIdxJS (fun w => w.fieldIs "id" (.num workflowId)) db.workflows with
  | none => (none, db)
  | some index =>
    let updated := bumpUsage (db.workflows.getD index [])
    let db1 := { db with workflows := db.workflows.set index updated }
    let db2 := logAudit db1 "WorkflowTemplate" (toString workflowId) "UPDATE" (.str "system") now
    (some updated, db2)

/-! ## Task, appointment and referral operations -/

/-- `createTask(taskData)`: id is `tasks.length + 1`, status defaults
through `taskData.status || pending`, audit CREATE as
`taskData.createdBy || system`. -/
def createTask (db : DB) (taskData : Obj) (now : Nat) : Obj × DB :=
  let statusVal := if (Obj.fetch taskData "status").truthy then Obj.fetch taskData "status" else .str "pending"
  let newTask :=
    Obj.put (Obj.put (Obj.spread [("id", Val.num (db.tasks.length + 1))] taskData)
      "status" statusVal) "createdAt" (.date now)
  let userVal := if (Obj.fetch taskData "createdBy").truthy then Obj.fetch taskData "createdBy" else .str "system"
  let db1 := { db with tasks := db.tasks ++ [newTask] }
  let db2 := logAudit db1 "Task" (Obj.fetch newTask "id").jsString "CREATE" userVal now
  (newTask, db2)

/-- `updateTask(taskId, updates)`: reject when absent; otherwise
shallow-merge, and when `updates.status === completed` additionally stamp
`completedAt`; audit UPDATE; resolve the stored record. -/
def updateTask (db : DB) (taskId : Int) (updates : Obj) (now : Nat) :
    Except String Obj × DB :=
  match findIdxJS (fun t => t.fieldIs "id" (.num taskId)) db.tasks with
  | none => (.error "Task not found", db)
  | some index =>
    let merged := Obj.spread (db.tasks.getD index []) updates
    let merged2 :=
      if Obj.get updates "status" = some (.str "completed") then
        Obj.put merged "completedAt" (.date now)
      else merged
    let db1 := { db with tasks := db.tasks.set index merged2 }
    let db2 := logAudit db1 "Task" (toString taskId) "UPDATE" (.str "system") now
    (.ok merged2, db2)

/-- `createAppointment(appointmentData)`: id is `appointments.length + 1`,
status defaults through `|| scheduled`, audit CREATE. -/
def createAppointment (db : DB) (appointmentData : Obj) (now : Nat) : Obj × DB :=
  let statusVal :=
    if (Obj.fetch appointmentData "status").truthy then Obj.fetch appointmentData "status" else .str "scheduled"
  let newAppointment :=
    Obj.put (Obj.put (Obj.spread [("id", Val.num (db.appointments.length + 1))] appointmentData)
      "status" statusVal) "createdAt" (.date now)
  let db1 := { db with appointments := db.appointments ++ [newAppointment] }
  let db2 := logAudit db1 "Appointment" (Obj.fetch newAppointment "id").jsString "CREATE" (.str "system") now
  (newAppointment, db2)

/-- `createReferral(referralData)`: id is `referrals.length + 1`, status
defaults through `|| pending`, audit CREATE. -/
def createReferral (db : DB) (referralData : Obj) (now : Nat) : Obj × DB :=
  let statusVal :=
    if (Obj.fetch referralData "status").truthy then Obj.fetch referralData "status" else .str "pending"
  let newReferral :=
    Obj.put (Obj.put (Obj.spread [("id", Val.num (db.referrals.length + 1))] referralData)
      "status" statusVal) "createdAt" (.date now)
  let db1 := { db with referrals := db.referrals ++ [newReferral] }
  let db2 := logAudit db1 "Referral" (Obj.fetch newReferral "id").jsString "CREATE" (.str "system") now
  (newReferral, db2)

/-! ## Search -/

/-- JS `x.toLowerCase()`: defined on strings; on any other value (in
particular `undefined`, the read of a missing property) the call throws a
TypeError. -/
def Val.toLowerCaseJS : Val → Except String String
  | .str s => .ok s.toLower
  | _ => .error "TypeError: toLowerCase is not a function"

/-- Does `needle` begin `hay`?  (helper for JS `includes`) -/
def beginsWith : List Char → List Char → Bool
  | [], _ => true
  | _ :: _, [] => false
  | a :: as, b :: bs => a == b && beginsWith as bs

/-- JS `hay.includes(needle)` over character lists. -/
def charsInclude (needle : List Char) : List Char → Bool
  | [] => beginsWith needle []
  | b :: bs => beginsWith needle (b :: bs) || charsInclude needle bs

/-- JS `hay.includes(needle)`. -/
def strIncludes (hay needle : String) : Bool :=
  charsInclude needle.toList hay.toList

/-- The filter callback of `searchPatients`, with the JS short-circuit
evaluation of `||`: each disjunct reads a field and lowercases it (in the
order firstName, lastName, id, email), so the call throws at the first
inspected field that is not a string. -/
def matchesQuery (p : Obj) (lowerQuery : String) : Except String Bool :=
  match (Obj.fetch p "firstName").toLowerCaseJS with
  | .error e => .error e
  | .ok f =>
    if strIncludes f lowerQuery then .ok true else
    match (Obj.fetch p "lastName").toLowerCaseJS with
    | .error e => .error e
    | .ok l =>
      if strIncludes l lowerQuery then .ok true else
      match (Obj.fetch p "id").toLowerCaseJS with
      | .error e => .error e
      | .ok i =>
        if strIncludes i lowerQuery then .ok true else
        match (Obj.fetch p "email").toLowerCaseJS with
        | .error e => .error e
        | .ok em => .ok (strIncludes em lowerQuery)

/-- JS `Array.filter` with a callback that can throw: elements are tested
in order and the first exception aborts the whole call. -/
def filterE (f : α → Except String Bool) : List α → Except String (List α)
  | [] => .ok []
  | a :: as =>
    match f a with
    | .error e => .error e
    | .ok b =>
      match filterE f as with
      | .error e => .error e
      | .ok r => .ok (if b then a :: r else r)

/-- `searchPatients(query)`: lowercase the query once, then filter the
patients by the four-field substring test. -/
def searchPatients (db : DB) (query : String) : Except String (List Obj) :=
  filterE (fun p => matchesQuery p query.toLower) db.patients

/-! ## The seeded initial store (the constructor of `DatabaseService`) -/

def seedPatientJames : Obj :=
  [("id", .str "P20250002"), ("firstName", .str "James"), ("lastName", .str "Martinez"),
   ("dateOfBirth", .str "1978-07-21"), ("gender", .str "Male"), ("bloodType", .str "A+"),
   ("phone", .str "(555) 234-5678"), ("email", .str "james.martinez@email.com"),
   ("emergencyContactName", .str "Maria Martinez"), ("emergencyContactPhone", .str "(555) 234-5679"),
   ("insuranceProvider", .str "Aetna"), ("insurancePolicyNumber", .str "AET987654321"),
   ("status", .str "active"), ("createdAt", .date 20250107)]

def seedPatientEmily : Obj :=
  [("id", .str "P20250003"), ("firstName", .str "Emily"), ("lastName", .str "Chen"),
   ("dateOfBirth", .str "1992-11-29"), ("gender", .str "Female"), ("bloodType", .str "O+"),
   ("phone", .str "(555) 345-6789"), ("email", .str "emily.chen@email.com"),
   ("emergencyContactName", .str "David Chen"), ("emergencyContactPhone", .str "(555) 345-6790"),
   ("insuranceProvider", .str "Blue Cross"), ("insurancePolicyNumber", .str "BC123456789"),
   ("status", .str "active"), ("createdAt", .date 20250104)]

def seedPatientSarah : Obj :=
  [("id", .str "P20250001"), ("firstName", .str "Sarah"), ("lastName", .str "Johnson"),
   ("dateOfBirth", .str "1985-03-14"), ("gender", .str "Female"), ("bloodType", .str "B+"),
   ("phone", .str "(555) 123-4567"), ("email", .str "sarah.johnson@email.com"),
   ("emergencyContactName", .str "Michael Johnson"), ("emergencyContactPhone", .str "(555) 123-4568"),
   ("insuranceProvider", .str "United Healthcare"), ("insurancePolicyNumber", .str "UHC987654321"),
   ("status", .str "active"), ("createdAt", .date 20250109)]

def initDB : DB where
  patients := [seedPatientJames, seedPatientEmily, seedPatientSarah]
  allergies :=
    [[("id", .num 1), ("patientId", .str "P20250002"), ("allergen", .str "Latex"),
      ("reaction", .str "Skin rash, itching"), ("severity", .str "moderate"), ("status", .str "active")],
     [("id", .num 2), ("patientId", .str "P20250001"), ("allergen", .str "Penicillin"),
      ("reaction", .str "Hives, difficulty breathing"), ("severity", .str "severe"), ("status", .str "active")],
     [("id", .num 3), ("patientId", .str "P20250001"), ("allergen", .str "Shellfish"),
      ("reaction", .str "Anaphylaxis"), ("severity", .str "life_threatening"), ("status", .str "active")]]
  chronicConditions :=
    [[("id", .num 1), ("patientId", .str "P20250002"), ("condition", .str "Type 2 Diabetes"),
      ("diagnosisDate", .str "2015-06-15"), ("status", .str "active")],
     [("id", .num 2), ("patientId", .str "P20250002"), ("condition", .str "High Cholesterol"),
      ("diagnosisDate", .str "2018-03-22"), ("status", .str "active")]]
  clinicalNotes := []
  workflows :=
    [[("id", .num 1), ("name", .str "Emergency Department Triage"),
      ("description", .str "Rapid assessment workflow for emergency department patients"),
      ("category", .str "emergency"), ("steps", .num 4), ("checklistItems", .num 5),
      ("usageCount", .num 156)],
     [("id", .num 2), ("name", .str "Annual Physical Examination"),
      ("description", .str "Standard workflow for routine annual health checkups"),
      ("category", .str "examination"), ("steps", .num 5), ("checklistItems", .num 5),
      ("usageCount", .num 89)],
     [("id", .num 3), ("name", .str "New Patient Intake"),
      ("description", .str "Comprehensive workflow for registering and onboarding new patients"),
      ("category", .str "intake"), ("steps", .num 4), ("checklistItems", .num 5),
      ("usageCount", .num 45)]]
  tasks := []
  appointments := []
  referrals := []
  auditLog := []

/-! ## Record lemmas -/

theorem Obj.get_put_self (o : Obj) (k : String) (v : Val) :
    Obj.get (Obj.put o k v) k = some v := by
  induction o with
  | nil => simp [Obj.put, Obj.get]
  | cons h t ih =>
    obtain ⟨k0, v0⟩ := h
    by_cases hk : k0 = k
    · simp [Obj.put, Obj.get, hk]
    · simp [Obj.put, Obj.get, hk, ih]

theorem Obj.get_put_ne (o : Obj) (k k' : String) (v : Val) (h : k' ≠ k) :
    Obj.get (Obj.put o k v) k' = Obj.get o k' := by
  induction o with
  | nil => simp [Obj.put, Obj.get, Ne.symm h]
  | cons hd t ih =>
    obtain ⟨k0, v0⟩ := hd
    by_cases hk : k0 = k
    · subst hk
      simp [Obj.put, Obj.get, Ne.symm h]
    · simp only [Obj.put, if_neg hk, Obj.get]
      by_cases hk' : k0 = k'
      · simp [hk']
      · simp [hk', ih]

theorem Obj.get_spread (o u : Obj) (k : String) :
    Obj.get (Obj.spread o u) k =
      match Obj.lookupLast u k with
      | some v => some v
      | none => Obj.get o k := by
  induction u generalizing o with
  | nil => simp [Obj.spread, Obj.lookupLast]
  | cons hd t ih =>
    obtain ⟨k0, v0⟩ := hd
    have hstep : Obj.spread o ((k0, v0) :: t) = Obj.spread (Obj.put o k0 v0) t := rfl
    rw [hstep, ih]
    cases hlast : Obj.lookupLast t k with
    | some v => simp [Obj.lookupLast, hlast]
    | none =>
      by_cases hk : k0 = k
      · subst hk
        simp [Obj.lookupLast, hlast, Obj.get_put_self]
      · simp [Obj.lookupLast, hlast, hk, Obj.get_put_ne o k0 k v0 (Ne.symm hk)]

theorem Obj.lookupLast_eq_none_iff (u : Obj) (k : String) :
    Obj.lookupLast u k = none ↔ Obj.get u k = none := by
  induction u with
  | nil => simp [Obj.lookupLast, Obj.get]
  | cons hd t ih =>
    obtain ⟨k0, v0⟩ := hd
    by_cases hk : k0 = k
    · subst hk
      constructor
      · intro h
        simp only [Obj.lookupLast] at h
        split at h
        · exact absurd h (by simp)
        · simp at h
      · intro h
        simp [Obj.get] at h
    · simp only [Obj.lookupLast, Obj.get, if_neg hk]
      constructor
      · intro h
        split at h
        · exact absurd h (by simp)
        · rw [← ih]; assumption
      · intro h
        rw [← ih] at h
        simp [h, hk]

theorem Obj.get_eq_none_of_not_mem (o : Obj) (k : String)
    (h : k ∉ o.map Prod.fst) : Obj.get o k = none := by
  induction o with
  | nil => rfl
  | cons hd t ih =>
    obtain ⟨k0, v0⟩ := hd
    simp only [List.map_cons, List.mem_cons] at h
    push_neg at h
    simp only [Obj.get, if_neg (Ne.symm h.1)]
    exact ih h.2

theorem Obj.lookupLast_eq_get (u : Obj) (k : String) (hnd : u.NoDupKeys) :
    Obj.lookupLast u k = Obj.get u k := by
  induction u with
  | nil => rfl
  | cons hd t ih =>
    obtain ⟨k0, v0⟩ := hd
    have hnd2 := List.nodup_cons.mp hnd
    by_cases hk : k0 = k
    · subst hk
      have hget : Obj.get t k0 = none :=
        Obj.get_eq_none_of_not_mem t k0 hnd2.1
      have hlast : Obj.lookupLast t k0 = none := (Obj.lookupLast_eq_none_iff t k0).mpr hget
      simp [Obj.lookupLast, hlast, Obj.get]
    · simp only [Obj.lookupLast, Obj.get, if_neg hk]
      rw [ih hnd2.2]
      cases hg : Obj.get t k <;> simp [hk]

theorem Obj.get_spread_of_get (o u : Obj) (k : String) (v : Val)
    (hnd : u.NoDupKeys) (h : Obj.get u k = some v) :
    Obj.get (Obj.spread o u) k = some v := by
  rw [Obj.get_spread, Obj.lookupLast_eq_get u k hnd, h]

theorem Obj.get_spread_of_none (o u : Obj) (k : String)
    (h : Obj.get u k = none) :
    Obj.get (Obj.spread o u) k = Obj.get o k := by
  rw [Obj.get_spread, (Obj.lookupLast_eq_none_iff u k).mpr h]

/-! ## Find / filter lemmas -/

theorem findJS_eq_none_of_all (f : α → Bool) (l : List α)
    (h : ∀ a ∈ l, f a = false) : findJS f l = none := by
  induction l with
  | nil => rfl
  | cons a t ih =>
    have ha := h a (List.mem_cons_self a t)
    simp [findJS, ha, ih (fun x hx => h x (List.mem_cons_of_mem a hx))]

theorem findIdxJS_eq_none_of_all (f : α → Bool) (l : List α)
    (h : ∀ a ∈ l, f a = false) : findIdxJS f l = none := by
  induction l with
  | nil => rfl
  | cons a t ih =>
    have ha := h a (List.mem_cons_self a t)
    simp [findIdxJS, ha, ih (fun x hx => h x (List.mem_cons_of_mem a hx))]

theorem findIdxJS_isSome_of_mem (f : α → Bool) (l : List α) (a : α)
    (hmem : a ∈ l) (ha : f a = true) : (findIdxJS f l).isSome = true := by
  induction l with
  | nil => simp at hmem
  | cons b t ih =>
    by_cases hb : f b
    · simp [findIdxJS, hb]
    · rcases List.mem_cons.mp hmem with h | h
      · subst h; exact absurd ha hb
      · have hs := ih h
        simp only [findIdxJS, hb, Bool.false_eq_true, if_false]
        cases hft : findIdxJS f t with
        | some j => simp
        | none => rw [hft] at hs; simp at hs

theorem findIdxJS_append_last (f : α → Bool) (l : List α) (b : α)
    (hl : ∀ a ∈ l, f a = false) (hb : f b = true) :
    findIdxJS f (l ++ [b]) = some l.length := by
  induction l with
  | nil => simp [findIdxJS, hb]
  | cons a t ih =>
    have ha : f a = false := hl a (List.mem_cons_self a t)
    rw [List.cons_append]
    simp [findIdxJS, ha, ih (fun x hx => hl x (List.mem_cons_of_mem a hx))]

theorem findJS_append_last (f : α → Bool) (l : List α) (b : α)
    (hl : ∀ a ∈ l, f a = false) (hb : f b = true) :
    findJS f (l ++ [b]) = some b := by
  induction l with
  | nil => simp [findJS, hb]
  | cons a t ih =>
    have ha : f a = false := hl a (List.mem_cons_self a t)
    rw [List.cons_append]
    simp [findJS, ha, ih (fun x hx => hl x (List.mem_cons_of_mem a hx))]

theorem getD_append_len (l : List α) (b : α) (d : α) :
    (l ++ [b]).getD l.length d = b := by
  induction l with
  | nil => rfl
  | cons a t _ => simp

theorem set_append_len (l : List α) (b c : α) :
    (l ++ [b]).set l.length c = l ++ [c] := by
  induction l with
  | nil => rfl
  | cons a t ih => simp [List.set, ih]

theorem eraseIdx_all_fail (f : α → Bool) (l : List α) (i : Nat)
    (hfind : findIdxJS f l = some i) (hcount : l.countP f ≤ 1) :
    ∀ a ∈ l.eraseIdx i, f a = false := by
  induction l generalizing i with
  | nil => simp [findIdxJS] at hfind
  | cons a t ih =>
    rw [List.countP_cons] at hcount
    by_cases ha : f a
    · simp only [findIdxJS, ha, if_true, Option.some.injEq] at hfind
      subst hfind
      have hc : t.countP f = 0 := by
        simp only [ha, if_true] at hcount
        omega
      intro x hx
      exact Bool.eq_false_iff.mpr (List.countP_eq_zero.mp hc x hx)
    · simp only [findIdxJS, ha, Bool.false_eq_true, if_false] at hfind
      cases hft : findIdxJS f t with
      | none => rw [hft] at hfind; simp at hfind
      | some j =>
        rw [hft] at hfind
        have hji : j + 1 = i := Option.some.inj hfind
        subst hji
        intro x hx
        rcases List.mem_cons.mp hx with hx | hx
        · subst hx; exact Bool.eq_false_iff.mpr ha
        · have hc : t.countP f ≤ 1 := by
            simp only [ha, if_false] at hcount
            omega
          exact ih j hft hc x hx

/-! ## Characterization of the operations on found / not-found ids -/

theorem updatePatient_found (db : DB) (pid : String) (u : Obj) (now : Nat) (i : Nat)
    (hidx : findIdxJS (fun p => p.fieldIs "id" (.str pid)) db.patients = some i) :
    updatePatient db pid u now =
      (.ok (Obj.put (Obj.spread (db.patients.getD i []) u) "updatedAt" (.date now)),
       { db with
         patients := db.patients.set i (Obj.put (Obj.spread (db.patients.getD i []) u) "updatedAt" (.date now))
         auditLog := db.auditLog ++ [⟨db.auditLog.length + 1, "Patient", pid, "UPDATE", .str "system", now⟩] }) := by
  simp [updatePatient, hidx, logAudit]

theorem updatePatient_notFound (db : DB) (pid : String) (u : Obj) (now : Nat)
    (h : ∀ p ∈ db.patients, p.fieldIs "id" (.str pid) = false) :
    updatePatient db pid u now = (.error "Patient not found", db) := by
  simp [updatePatient, findIdxJS_eq_none_of_all _ _ h]

theorem deletePatient_found (db : DB) (pid : String) (now : Nat) (i : Nat)
    (hidx : findIdxJS (fun p => p.fieldIs "id" (.str pid)) db.patients = some i) :
    deletePatient db pid now =
      (.ok [("success", .bool true)],
       { patients := db.patients.eraseIdx i
         allergies := db.allergies.filter (fun a => !(a.fieldIs "patientId" (.str pid)))
         chronicConditions := db.chronicConditions.filter (fun c => !(c.fieldIs "patientId" (.str pid)))
         clinicalNotes := db.clinicalNotes.filter (fun n => !(n.fieldIs "patientId" (.str pid)))
         workflows := db.workflows
         tasks := db.tasks.filter (fun t => !(t.fieldIs "patientId" (.str pid)))
         appointments := db.appointments.filter (fun a => !(a.fieldIs "patientId" (.str pid)))
         referrals := db.referrals.filter (fun r => !(r.fieldIs "patientId" (.str pid)))
         auditLog := db.auditLog ++ [⟨db.auditLog.length + 1, "Patient", pid, "DELETE", .str "system", now⟩] }) := by
  simp [deletePatient, hidx, logAudit]

theorem deletePatient_notFound (db : DB) (pid : String) (now : Nat)
    (h : ∀ p ∈ db.patients, p.fieldIs "id" (.str pid) = false) :
    deletePatient db pid now = (.error "Patient not found", db) := by
  simp [deletePatient, findIdxJS_eq_none_of_all _ _ h]

theorem getPatientById_notFound (db : DB) (pid : String)
    (h : ∀ p ∈ db.patients, p.fieldIs "id" (.str pid) = false) :
    getPatientById db pid = .error "Patient not found" := by
  simp [getPatientById, findJS_eq_none_of_all _ _ h]

theorem updateClinicalNote_found (db : DB) (nid : Int) (u : Obj) (now : Nat) (i : Nat)
    (hidx : findIdxJS (fun n => n.fieldIs "id" (.num nid)) db.clinicalNotes = some i) :
    updateClinicalNote db nid u now =
      (.ok (Obj.put (Obj.spread (db.clinicalNotes.getD i []) u) "updatedAt" (.date now)),
       { db with
         clinicalNotes := db.clinicalNotes.set i (Obj.put (Obj.spread (db.clinicalNotes.getD i []) u) "updatedAt" (.date now))
         auditLog := db.auditLog ++ [⟨db.auditLog.length + 1, "ClinicalNote", toString nid, "UPDATE", .str "system", now⟩] }) := by
  simp [updateClinicalNote, hidx, logAudit]

theorem updateClinicalNote_notFound (db : DB) (nid : Int) (u : Obj) (now : Nat)
    (h : ∀ n ∈ db.clinicalNotes, n.fieldIs "id" (.num nid) = false) :
    updateClinicalNote db nid u now = (.error "Clinical note not found", db) := by
  simp [updateClinicalNote, findIdxJS_eq_none_of_all _ _ h]

theorem removeAllergy_found (db : DB) (aid : Int) (now : Nat) (i : Nat)
    (hidx : findIdxJS (fun a => a.fieldIs "id" (.num aid)) db.allergies = some i) :
    removeAllergy db aid now =
      (.ok [("success", .bool true)],
       { db with
         allergies := db.allergies.eraseIdx i
         auditLog := db.auditLog ++ [⟨db.auditLog.length + 1, "Allergy", toString aid, "DELETE", .str "system", now⟩] }) := by
  simp [removeAllergy, hidx, logAudit]

theorem removeAllergy_notFound (db : DB) (aid : Int) (now : Nat)
    (h : ∀ a ∈ db.allergies, a.fieldIs "id" (.num aid) = false) :
    removeAllergy db aid now = (.error "Allergy not found", db) := by
  simp [removeAllergy, findIdxJS_eq_none_of_all _ _ h]

theorem getWorkflowById_notFound (db : DB) (wid : Int)
    (h : ∀ w ∈ db.workflows, w.fieldIs "id" (.num wid) = false) :
    getWorkflowById db wid = .error "Workflow not found" := by
  simp [getWorkflowById, findJS_eq_none_of_all _ _ h]

theorem incrementWorkflowUsage_found (db : DB) (wid : Int) (now : Nat) (i : Nat)
    (hidx : findIdxJS (fun w => w.fieldIs "id" (.num wid)) db.workflows = some i) :
    incrementWorkflowUsage db wid now =
      (some (bumpUsage (db.workflows.getD i [])),
       { db with
         workflows := db.workflows.set i (bumpUsage (db.workflows.getD i []))
         auditLog := db.auditLog ++ [⟨db.auditLog.length + 1, "WorkflowTemplate", toString wid, "UPDATE", .str "system", now⟩] }) := by
  simp [incrementWorkflowUsage, hidx, logAudit]

theorem incrementWorkflowUsage_notFound (db : DB) (wid : Int) (now : Nat)
    (h : ∀ w ∈ db.workflows, w.fieldIs "id" (.num wid) = false) :
    incrementWorkflowUsage db wid now = (none, db) := by
  simp [incrementWorkflowUsage, findIdxJS_eq_none_of_all _ _ h]

theorem updateTask_found (db : DB) (tid : Int) (u : Obj) (now : Nat) (i : Nat)
    (hidx : findIdxJS (fun t => t.fieldIs "id" (.num tid)) db.tasks = some i) :
    updateTask db tid u now =
      (let merged := Obj.spread (db.tasks.getD i []) u
       let merged2 := if Obj.get u "status" = some (.str "completed") then
           Obj.put merged "completedAt" (.date now) else merged
       (.ok merged2,
        { db with
          tasks := db.tasks.set i merged2
          auditLog := db.auditLog ++ [⟨db.auditLog.length + 1, "Task", toString tid, "UPDATE", .str "system", now⟩] })) := by
  simp [updateTask, hidx, logAudit]

theorem updateTask_notFound (db : DB) (tid : Int) (u : Obj) (now : Nat)
    (h : ∀ t ∈ db.tasks, t.fieldIs "id" (.num tid) = false) :
    updateTask db tid u now = (.error "Task not found", db) := by
  simp [updateTask, findIdxJS_eq_none_of_all _ _ h]


/-! ## Claim theorems -/

/-- C1: for every patient P present in the store (ids unique within the
patient sequence — the spec's standing invariant), `deletePatient(P)`
resolves with success, removes the Patient record and every Allergy,
ChronicCondition, ClinicalNote, Task, Appointment and Referral record
whose patient reference equals P — a full scan of the post-state finds
zero records referencing P — and a subsequent `getPatientById(P)` fails
with the NotFound rejection "Patient not found". -/
theorem C1_deletePatient_cascade (db : DB) (pid : String) (now : Nat)
    (hpresent : ∃ p ∈ db.patients, p.fieldIs "id" (.str pid) = true)
    (huniq : db.patients.countP (fun p => p.fieldIs "id" (.str pid)) ≤ 1) :
    (deletePatient db pid now).1 = .ok [("success", .bool true)] ∧
    (∀ p ∈ (deletePatient db pid now).2.patients, p.fieldIs "id" (.str pid) = false) ∧
    (∀ x ∈ (deletePatient db pid now).2.allergies, x.fieldIs "patientId" (.str pid) = false) ∧
    (∀ x ∈ (deletePatient db pid now).2.chronicConditions, x.fieldIs "patientId" (.str pid) = false) ∧
    (∀ x ∈ (deletePatient db pid now).2.clinicalNotes, x.fieldIs "patientId" (.str pid) = false) ∧
    (∀ x ∈ (deletePatient db pid now).2.tasks, x.fieldIs "patientId" (.str pid) = false) ∧
    (∀ x ∈ (deletePatient db pid now).2.appointments, x.fieldIs "patientId" (.str pid) = false) ∧
    (∀ x ∈ (deletePatient db pid now).2.referrals, x.fieldIs "patientId" (.str pid) = false) ∧
    getPatientById (deletePatient db pid now).2 pid = .error "Patient not found" := by
  obtain ⟨p, hp, hfp⟩ := hpresent
  have hsome := findIdxJS_isSome_of_mem (fun q => q.fieldIs "id" (.str pid)) db.patients p hp hfp
  cases hidx : findIdxJS (fun q => q.fieldIs "id" (.str pid)) db.patients with
  | none => rw [hidx] at hsome; simp at hsome
  | some i =>
    rw [deletePatient_found db pid now i hidx]
    have hpat := eraseIdx_all_fail _ db.patients i hidx huniq
    have hfilter : ∀ (l : List Obj),
        ∀ x ∈ l.filter (fun y => !(y.fieldIs "patientId" (.str pid))),
        x.fieldIs "patientId" (.str pid) = false := by
      intro l x hx
      simpa using (List.mem_filter.mp hx).2
    refine ⟨rfl, hpat, hfilter _, hfilter _, hfilter _, hfilter _, hfilter _, hfilter _, ?_⟩
    exact getPatientById_notFound _ pid hpat

/-- Witness for C1: delete the seeded patient P20250001 (owner of two
seed allergies). -/
theorem C1_witness :
    ((∃ p ∈ initDB.patients, p.fieldIs "id" (.str "P20250001") = true) ∧
     initDB.patients.countP (fun p => p.fieldIs "id" (.str "P20250001")) ≤ 1) ∧
    (∀ x ∈ (deletePatient initDB "P20250001" 5).2.allergies,
        x.fieldIs "patientId" (.str "P20250001") = false) ∧
    getPatientById (deletePatient initDB "P20250001" 5).2 "P20250001" = .error "Patient not found" := by
  refine ⟨⟨by decide, by decide⟩, ?_, ?_⟩
  · exact (C1_deletePatient_cascade initDB "P20250001" 5 (by decide) (by decide)).2.2.1
  · exact (C1_deletePatient_cascade initDB "P20250001" 5
      (by decide) (by decide)).2.2.2.2.2.2.2.2

/-- C2 (the code evaluated at the failing input): after `removeAllergy(1)`
on the seeded store, the next `addAllergy` assigns id
`allergies.length + 1 = 3`, which duplicates the id of the surviving seed
allergy 3 — identifiers are not unique; and ids are not monotonically
increasing across `addAllergy` calls: an add yields id 4, then after two
removals the next add yields id 3 again. -/
theorem C2_id_reuse_eval :
    (Obj.get (addAllergy (removeAllergy initDB 1 100).2
        [("patientId", .str "P20250001"), ("allergen", .str "Dust")] 101).1 "id"
      = some (.num 3) ∧
     ((addAllergy (removeAllergy initDB 1 100).2
        [("patientId", .str "P20250001"), ("allergen", .str "Dust")] 101).2.allergies.map
        (fun x => Obj.get x "id")).count (some (Val.num 3)) = 2) ∧
    (Obj.get (addAllergy initDB
        [("patientId", .str "P20250002"), ("allergen", .str "Pollen")] 10).1 "id"
      = some (.num 4) ∧
     Obj.get (addAllergy (removeAllergy (removeAllergy
        (addAllergy initDB [("patientId", .str "P20250002"), ("allergen", .str "Pollen")] 10).2
        1 11).2 2 12).2
        [("patientId", .str "P20250002"), ("allergen", .str "Mold")] 13).1 "id"
      = some (.num 3)) := by
  decide

/-- C4: `incrementWorkflowUsage(id)` on an absent workflow id resolves
without rejecting, returns `undefined` (`none`) and leaves the whole
store — every usage counter and the audit log — unchanged; on a present
id (first match at index i, with the numeric usage counter every
reachable workflow record carries) it increments exactly that workflow's
`usageCount` by one, changes no other field, and appends exactly one
UPDATE audit entry for it. -/
theorem C4_incrementWorkflowUsage (db : DB) (wid : Int) (now : Nat) :
    ((∀ w ∈ db.workflows, w.fieldIs "id" (.num wid) = false) →
      incrementWorkflowUsage db wid now = (none, db)) ∧
    (∀ i n, findIdxJS (fun w => w.fieldIs "id" (.num wid)) db.workflows = some i →
      Obj.get (db.workflows.getD i []) "usageCount" = some (.num n) →
      ∃ r, incrementWorkflowUsage db wid now =
        (some r,
         { db with
           workflows := db.workflows.set i r
           auditLog := db.auditLog ++
             [⟨db.auditLog.length + 1, "WorkflowTemplate", toString wid, "UPDATE", .str "system", now⟩] }) ∧
        Obj.get r "usageCount" = some (.num (n + 1)) ∧
        (∀ k, k ≠ "usageCount" → Obj.get r k = Obj.get (db.workflows.getD i []) k)) := by
  constructor
  · intro h; exact incrementWorkflowUsage_notFound db wid now h
  · intro i n hidx hn
    refine ⟨bumpUsage (db.workflows.getD i []), ?_, ?_, ?_⟩
    · exact incrementWorkflowUsage_found db wid now i hidx
    · unfold bumpUsage
      rw [hn]
      exact Obj.get_put_self _ _ _
    · intro k hk
      unfold bumpUsage
      rw [hn]
      exact Obj.get_put_ne _ _ _ _ hk

/-- Witness for C4: the absent id 9999 resolves `undefined` with the
store untouched; the present id 2 goes from usage 89 to 90. -/
theorem C4_witness :
    incrementWorkflowUsage initDB 9999 7 = (none, initDB) ∧
    ∃ r, (incrementWorkflowUsage initDB 2 7).1 = some r ∧
      Obj.get r "usageCount" = some (.num 90) := by
  refine ⟨(C4_incrementWorkflowUsage initDB 9999 7).1 (by decide), ?_⟩
  obtain ⟨r, heq, hn, _⟩ :=
    (C4_incrementWorkflowUsage initDB 2 7).2 1 89 (by decide) (by decide)
  exact ⟨r, by rw [heq], hn⟩

/-- C5: every id-keyed operation except `incrementWorkflowUsage` —
getPatientById, updatePatient, deletePatient, updateClinicalNote,
removeAllergy, getWorkflowById, updateTask — called with an identifier
absent from the store rejects with a human-readable message, and the
entire store state (every entity sequence and the audit log) is unchanged
by the failed call: the mutators return the input store identically, and
the two lookups are pure reads of it. -/
theorem C5_notFound_rejects (db : DB) (pid : String) (nid aid wid tid : Int)
    (u : Obj) (now : Nat) :
    ((∀ p ∈ db.patients, p.fieldIs "id" (.str pid) = false) →
        getPatientById db pid = .error "Patient not found" ∧
        updatePatient db pid u now = (.error "Patient not found", db) ∧
        deletePatient db pid now = (.error "Patient not found", db)) ∧
    ((∀ n ∈ db.clinicalNotes, n.fieldIs "id" (.num nid) = false) →
        updateClinicalNote db nid u now = (.error "Clinical note not found", db)) ∧
    ((∀ a ∈ db.allergies, a.fieldIs "id" (.num aid) = false) →
        removeAllergy db aid now = (.error "Allergy not found", db)) ∧
    ((∀ w ∈ db.workflows, w.fieldIs "id" (.num wid) = false) →
        getWorkflowById db wid = .error "Workflow not found") ∧
    ((∀ t ∈ db.tasks, t.fieldIs "id" (.num tid) = false) →
        updateTask db tid u now = (.error "Task not found", db)) :=
  ⟨fun h => ⟨getPatientById_notFound db pid h, updatePatient_notFound db pid u now h,
      deletePatient_notFound db pid now h⟩,
    fun h => updateClinicalNote_notFound db nid u now h,
    fun h => removeAllergy_notFound db aid now h,
    fun h => getWorkflowById_notFound db wid h,
    fun h => updateTask_notFound db tid u now h⟩

/-- Witness for C5: absent ids on the seeded store; each call rejects and
returns the store unchanged. -/
theorem C5_witness :
    getPatientById initDB "NOPE" = .error "Patient not found" ∧
    updatePatient initDB "NOPE" [] 3 = (.error "Patient not found", initDB) ∧
    deletePatient initDB "NOPE" 3 = (.error "Patient not found", initDB) ∧
    updateClinicalNote initDB 99 [] 3 = (.error "Clinical note not found", initDB) ∧
    removeAllergy initDB 99 3 = (.error "Allergy not found", initDB) ∧
    getWorkflowById initDB 99 = .error "Workflow not found" ∧
    updateTask initDB 99 [] 3 = (.error "Task not found", initDB) := by
  have h := C5_notFound_rejects initDB "NOPE" 99 99 99 99 [] 3
  exact ⟨(h.1 (by decide)).1, (h.1 (by decide)).2.1, (h.1 (by decide)).2.2,
    h.2.1 (by decide), h.2.2.1 (by decide), h.2.2.2.1 (by decide),
    h.2.2.2.2 (by decide)⟩


theorem getPatientById_found (db : DB) (pid : String) (p : Obj)
    (hfind : findJS (fun q => q.fieldIs "id" (.str pid)) db.patients = some p) :
    getPatientById db pid =
      .ok { record := p
            allergies := db.allergies.filter (fun a => a.fieldIs "patientId" (.str pid))
            chronicConditions := db.chronicConditions.filter (fun c => c.fieldIs "patientId" (.str pid))
            clinicalNotes := db.clinicalNotes.filter (fun n => n.fieldIs "patientId" (.str pid))
            tasks := db.tasks.filter (fun t => t.fieldIs "patientId" (.str pid))
            appointments := db.appointments.filter (fun a => a.fieldIs "patientId" (.str pid))
            referrals := db.referrals.filter (fun r => r.fieldIs "patientId" (.str pid)) } := by
  simp [getPatientById, hfind]

/-- C6: for every valid patient-creation input (a JS object — no duplicate
keys — that does not itself carry the reserved fields id / status /
createdAt / updatedAt) and a collision-free time-based identifier,
`createPatient` assigns the new identifier `P<now>`, which is unique among
the stored patients, and `getPatientById` on it returns the created
record: every input field stored unchanged, plus status "active" and
non-null created and updated timestamps (set to now). -/
theorem C6_createPatient_roundtrip (db : DB) (d : Obj) (now : Nat)
    (hnd : d.NoDupKeys)
    (hfresh : ∀ p ∈ db.patients, p.fieldIs "id" (.str ("P" ++ toString now)) = false)
    (hid : Obj.get d "id" = none) (hst : Obj.get d "status" = none)
    (hca : Obj.get d "createdAt" = none) (hua : Obj.get d "updatedAt" = none) :
    Obj.get (createPatient db d now).1 "id" = some (.str ("P" ++ toString now)) ∧
    (createPatient db d now).2.patients.countP
      (fun p => p.fieldIs "id" (.str ("P" ++ toString now))) = 1 ∧
    ∃ v, getPatientById (createPatient db d now).2 ("P" ++ toString now) = .ok v ∧
      v.record = (createPatient db d now).1 ∧
      (∀ k val, Obj.get d k = some val → Obj.get v.record k = some val) ∧
      Obj.get v.record "status" = some (.str "active") ∧
      Obj.get v.record "createdAt" = some (.date now) ∧
      Obj.get v.record "updatedAt" = some (.date now) := by
  have hrec : (createPatient db d now).1 =
      Obj.put (Obj.put (Obj.put (Obj.spread [("id", Val.str ("P" ++ toString now))] d)
        "status" (.str "active")) "createdAt" (.date now)) "updatedAt" (.date now) := rfl
  have hgetid : Obj.get (createPatient db d now).1 "id" = some (.str ("P" ++ toString now)) := by
    rw [hrec,
      Obj.get_put_ne _ _ _ _ (by decide : ("id" : String) ≠ "updatedAt"),
      Obj.get_put_ne _ _ _ _ (by decide : ("id" : String) ≠ "createdAt"),
      Obj.get_put_ne _ _ _ _ (by decide : ("id" : String) ≠ "status"),
      Obj.get_spread_of_none _ _ _ hid]
    rfl
  have hfieldtrue : ((createPatient db d now).1).fieldIs "id" (.str ("P" ++ toString now)) = true := by
    simp [Obj.fieldIs, hgetid]
  have hsplit : (createPatient db d now).2.patients =
      db.patients ++ [(createPatient db d now).1] := rfl
  have hstatus : Obj.get (createPatient db d now).1 "status" = some (.str "active") := by
    rw [hrec,
      Obj.get_put_ne _ _ _ _ (by decide : ("status" : String) ≠ "updatedAt"),
      Obj.get_put_ne _ _ _ _ (by decide : ("status" : String) ≠ "createdAt"),
      Obj.get_put_self]
  have hcreated : Obj.get (createPatient db d now).1 "createdAt" = some (.date now) := by
    rw [hrec,
      Obj.get_put_ne _ _ _ _ (by decide : ("createdAt" : String) ≠ "updatedAt"),
      Obj.get_put_self]
  have hupdated : Obj.get (createPatient db d now).1 "updatedAt" = some (.date now) := by
    rw [hrec, Obj.get_put_self]
  refine ⟨hgetid, ?_, ?_⟩
  · rw [hsplit, List.countP_append]
    have h0 : db.patients.countP (fun p => p.fieldIs "id" (.str ("P" ++ toString now))) = 0 :=
      List.countP_eq_zero.mpr (fun a ha => by simp [hfresh a ha])
    simp [h0, List.countP_cons, hfieldtrue]
  · have hfind : findJS (fun q => q.fieldIs "id" (.str ("P" ++ toString now)))
        (createPatient db d now).2.patients = some (createPatient db d now).1 := by
      rw [hsplit]
      exact findJS_append_last _ _ _ hfresh hfieldtrue
    refine ⟨_, getPatientById_found _ _ _ hfind, rfl, ?_, hstatus, hcreated, hupdated⟩
    intro k val hk
    have hks : k ≠ "status" := fun he => by rw [he, hst] at hk; exact Option.noConfusion hk
    have hkc : k ≠ "createdAt" := fun he => by rw [he, hca] at hk; exact Option.noConfusion hk
    have hku : k ≠ "updatedAt" := fun he => by rw [he, hua] at hk; exact Option.noConfusion hk
    rw [hrec, Obj.get_put_ne _ _ _ _ hku, Obj.get_put_ne _ _ _ _ hkc,
      Obj.get_put_ne _ _ _ _ hks]
    exact Obj.get_spread_of_get _ _ _ _ hnd hk

/-- Witness for C6: create Ada Lovelace at time 777 and read her back. -/
theorem C6_witness :
    Obj.get (createPatient initDB
      [("firstName", .str "Ada"), ("lastName", .str "Lovelace")] 777).1 "id"
      = some (.str ("P" ++ toString 777)) ∧
    ∃ v, getPatientById (createPatient initDB
        [("firstName", .str "Ada"), ("lastName", .str "Lovelace")] 777).2
        ("P" ++ toString 777) = .ok v ∧
      Obj.get v.record "firstName" = some (.str "Ada") ∧
      Obj.get v.record "status" = some (.str "active") := by
  have h := C6_createPatient_roundtrip initDB
    [("firstName", .str "Ada"), ("lastName", .str "Lovelace")] 777
    (by decide) (by decide) rfl rfl rfl rfl
  obtain ⟨v, hv, _, hpres, hstat, _, _⟩ := h.2.2
  exact ⟨h.1, v, hv, hpres "firstName" (.str "Ada") rfl, hstat⟩

/-- C8: `createTask` with no status field stores status "pending"; and
`updateTask(id, \x7bstatus: "completed"\x7d)` on any stored task resolves a
record whose status is "completed" and whose completedAt is the non-null
completion timestamp stamped at the time the merged status became
completed. -/
theorem C8_task_status (db : DB) (d : Obj) (tid : Int) (now : Nat) :
    (Obj.get d "status" = none →
      Obj.get (createTask db d now).1 "status" = some (.str "pending")) ∧
    ((∃ t ∈ db.tasks, t.fieldIs "id" (.num tid) = true) →
      ∃ r, (updateTask db tid [("status", .str "completed")] now).1 = .ok r ∧
        Obj.get r "status" = some (.str "completed") ∧
        Obj.get r "completedAt" = some (.date now)) := by
  constructor
  · intro h
    have hs : Obj.fetch d "status" = Val.undef := by simp [Obj.fetch, h]
    have hrec : (createTask db d now).1 =
        Obj.put (Obj.put (Obj.spread [("id", Val.num (db.tasks.length + 1))] d)
          "status" (.str "pending")) "createdAt" (.date now) := by
      simp [createTask, hs, Val.truthy]
    rw [hrec,
      Obj.get_put_ne _ _ _ _ (by decide : ("status" : String) ≠ "createdAt"),
      Obj.get_put_self]
  · rintro ⟨t, ht, hft⟩
    have hsome := findIdxJS_isSome_of_mem (fun q => q.fieldIs "id" (.num tid)) db.tasks t ht hft
    cases hidx : findIdxJS (fun q => q.fieldIs "id" (.num tid)) db.tasks with
    | none => rw [hidx] at hsome; simp at hsome
    | some i =>
      rw [updateTask_found db tid _ now i hidx]
      refine ⟨Obj.put (Obj.spread (db.tasks.getD i []) [("status", Val.str "completed")])
        "completedAt" (.date now), ?_, ?_, ?_⟩
      · simp [Obj.get]
      · rw [Obj.get_put_ne _ _ _ _ (by decide : ("status" : String) ≠ "completedAt")]
        exact Obj.get_spread_of_get _ _ _ _ (by decide) rfl
      · exact Obj.get_put_self _ _ _

/-- Witness for C8: a task created with no status is pending; completing
it stamps completedAt. -/
theorem C8_witness :
    Obj.get (createTask initDB
      [("title", .str "Follow up"), ("patientId", .str "P20250001")] 9).1 "status"
      = some (.str "pending") ∧
    ∃ r, (updateTask (createTask initDB
        [("title", .str "Follow up"), ("patientId", .str "P20250001")] 9).2 1
        [("status", .str "completed")] 10).1 = .ok r ∧
      Obj.get r "status" = some (.str "completed") ∧
      Obj.get r "completedAt" = some (.date 10) := by
  constructor
  · exact (C8_task_status initDB
      [("title", .str "Follow up"), ("patientId", .str "P20250001")] 1 9).1 rfl
  · exact (C8_task_status (createTask initDB
      [("title", .str "Follow up"), ("patientId", .str "P20250001")] 9).2 [] 1 10).2
      (by decide)

/-- C9: field precedence of the create operations: a caller-supplied `id`
in createPatient or createClinicalNote (written before the input spread)
is kept in the stored and returned record in place of the store-generated
identifier, while a caller-supplied `status`, `createdAt` or `updatedAt`
in createPatient, and a caller-supplied `status` in addAllergy or
addChronicCondition (all written after the spread), are always discarded:
status forced to "active", timestamps set to now. -/
theorem C9_create_field_precedence (db : DB) (d : Obj) (now : Nat) (v : Val)
    (hnd : d.NoDupKeys) :
    (Obj.get d "id" = some v → Obj.get (createPatient db d now).1 "id" = some v) ∧
    (Obj.get d "id" = some v → Obj.get (createClinicalNote db d now).1 "id" = some v) ∧
    Obj.get (createPatient db d now).1 "status" = some (.str "active") ∧
    Obj.get (createPatient db d now).1 "createdAt" = some (.date now) ∧
    Obj.get (createPatient db d now).1 "updatedAt" = some (.date now) ∧
    Obj.get (addAllergy db d now).1 "status" = some (.str "active") ∧
    Obj.get (addChronicCondition db d now).1 "status" = some (.str "active") := by
  have hrecP : (createPatient db d now).1 =
      Obj.put (Obj.put (Obj.put (Obj.spread [("id", Val.str ("P" ++ toString now))] d)
        "status" (.str "active")) "createdAt" (.date now)) "updatedAt" (.date now) := rfl
  refine ⟨?_, ?_, ?_, ?_, ?_, ?_, ?_⟩
  · intro h
    rw [hrecP,
      Obj.get_put_ne _ _ _ _ (by decide : ("id" : String) ≠ "updatedAt"),
      Obj.get_put_ne _ _ _ _ (by decide : ("id" : String) ≠ "createdAt"),
      Obj.get_put_ne _ _ _ _ (by decide : ("id" : String) ≠ "status")]
    exact Obj.get_spread_of_get _ _ _ _ hnd h
  · intro h
    have hrecN : (createClinicalNote db d now).1 =
        Obj.put (Obj.put (Obj.put (Obj.spread [("id", Val.num (db.clinicalNotes.length + 1))] d)
          "status" (if (Obj.fetch d "status").truthy then Obj.fetch d "status" else .str "draft"))
          "createdAt" (.date now)) "updatedAt" (.date now) := rfl
    rw [hrecN,
      Obj.get_put_ne _ _ _ _ (by decide : ("id" : String) ≠ "updatedAt"),
      Obj.get_put_ne _ _ _ _ (by decide : ("id" : String) ≠ "createdAt"),
      Obj.get_put_ne _ _ _ _ (by decide : ("id" : String) ≠ "status")]
    exact Obj.get_spread_of_get _ _ _ _ hnd h
  · rw [hrecP,
      Obj.get_put_ne _ _ _ _ (by decide : ("status" : String) ≠ "updatedAt"),
      Obj.get_put_ne _ _ _ _ (by decide : ("status" : String) ≠ "createdAt"),
      Obj.get_put_self]
  · rw [hrecP,
      Obj.get_put_ne _ _ _ _ (by decide : ("createdAt" : String) ≠ "updatedAt"),
      Obj.get_put_self]
  · rw [hrecP, Obj.get_put_self]
  · exact Obj.get_put_self _ _ _
  · exact Obj.get_put_self _ _ _

/-- Witness for C9: an input carrying id / status / createdAt keeps its
id but has status and timestamps overwritten. -/
theorem C9_witness :
    Obj.get (createPatient initDB
      [("id", .str "CUSTOM"), ("status", .str "bogus"), ("createdAt", .date 1)] 55).1 "id"
      = some (.str "CUSTOM") ∧
    Obj.get (createPatient initDB
      [("id", .str "CUSTOM"), ("status", .str "bogus"), ("createdAt", .date 1)] 55).1 "status"
      = some (.str "active") ∧
    Obj.get (createPatient initDB
      [("id", .str "CUSTOM"), ("status", .str "bogus"), ("createdAt", .date 1)] 55).1 "createdAt"
      = some (.date 55) ∧
    Obj.get (createClinicalNote initDB
      [("id", .str "CUSTOM"), ("status", .str "bogus"), ("createdAt", .date 1)] 55).1 "id"
      = some (.str "CUSTOM") ∧
    Obj.get (addAllergy initDB
      [("id", .str "CUSTOM"), ("status", .str "bogus"), ("createdAt", .date 1)] 55).1 "status"
      = some (.str "active") ∧
    Obj.get (addChronicCondition initDB
      [("id", .str "CUSTOM"), ("status", .str "bogus"), ("createdAt", .date 1)] 55).1 "status"
      = some (.str "active") := by
  have h := C9_create_field_precedence initDB
    [("id", .str "CUSTOM"), ("status", .str "bogus"), ("createdAt", .date 1)] 55
    (.str "CUSTOM") (by decide)
  exact ⟨h.1 rfl, h.2.2.1, h.2.2.2.1, h.2.1 rfl, h.2.2.2.2.2.1, h.2.2.2.2.2.2⟩


/-! ## Spread lemmas for update composition -/

theorem Obj.get_spread_put (o u : Obj) (k k0 : String) (v : Val) (h : k ≠ k0) :
    Obj.get (Obj.spread (Obj.put o k0 v) u) k = Obj.get (Obj.spread o u) k := by
  rw [Obj.get_spread, Obj.get_spread]
  cases hll : Obj.lookupLast u k with
  | some w => rfl
  | none => exact Obj.get_put_ne o k0 k v h

theorem Obj.get_spread_spread_self (o u : Obj) (k : String) :
    Obj.get (Obj.spread (Obj.spread o u) u) k = Obj.get (Obj.spread o u) k := by
  rw [Obj.get_spread (Obj.spread o u) u k]
  cases hll : Obj.lookupLast u k with
  | some w => simp [Obj.get_spread o u k, hll]
  | none => rfl

/-- The record `updateTask` stores: the shallow merge, with `completedAt`
stamped when the update sets status to completed. -/
def taskMerged (p u : Obj) (now : Nat) : Obj :=
  if Obj.get u "status" = some (.str "completed") then
    Obj.put (Obj.spread p u) "completedAt" (.date now)
  else Obj.spread p u

theorem get_taskMerged_ne (p u : Obj) (now : Nat) (k : String)
    (h : k ≠ "completedAt") :
    Obj.get (taskMerged p u now) k = Obj.get (Obj.spread p u) k := by
  unfold taskMerged
  split
  · exact Obj.get_put_ne _ _ _ _ h
  · rfl

theorem get_spread_taskMerged (p u u2 : Obj) (now : Nat) (k : String)
    (h : k ≠ "completedAt") :
    Obj.get (Obj.spread (taskMerged p u now) u2) k = Obj.get (Obj.spread (Obj.spread p u) u2) k := by
  unfold taskMerged
  split
  · exact Obj.get_spread_put _ _ _ _ _ h
  · rfl

/-! ## Update steps on a store whose target sits at the end -/

theorem updatePatient_append (db : DB) (l : List Obj) (p : Obj) (pid : String)
    (u : Obj) (now : Nat)
    (hdb : db.patients = l ++ [p])
    (hl : ∀ q ∈ l, q.fieldIs "id" (.str pid) = false)
    (hp : p.fieldIs "id" (.str pid) = true) :
    (updatePatient db pid u now).1 = .ok (Obj.put (Obj.spread p u) "updatedAt" (.date now)) ∧
    (updatePatient db pid u now).2.patients =
      l ++ [Obj.put (Obj.spread p u) "updatedAt" (.date now)] := by
  have hidx : findIdxJS (fun q => q.fieldIs "id" (.str pid)) db.patients = some l.length := by
    rw [hdb]; exact findIdxJS_append_last _ _ _ hl hp
  have hgetD : db.patients.getD l.length [] = p := by
    rw [hdb]; exact getD_append_len l p []
  rw [updatePatient_found db pid u now l.length hidx, hgetD]
  refine ⟨rfl, ?_⟩
  show db.patients.set l.length _ = _
  rw [hdb, set_append_len]

theorem updateClinicalNote_append (db : DB) (l : List Obj) (p : Obj) (nid : Int)
    (u : Obj) (now : Nat)
    (hdb : db.clinicalNotes = l ++ [p])
    (hl : ∀ q ∈ l, q.fieldIs "id" (.num nid) = false)
    (hp : p.fieldIs "id" (.num nid) = true) :
    (updateClinicalNote db nid u now).1 = .ok (Obj.put (Obj.spread p u) "updatedAt" (.date now)) ∧
    (updateClinicalNote db nid u now).2.clinicalNotes =
      l ++ [Obj.put (Obj.spread p u) "updatedAt" (.date now)] := by
  have hidx : findIdxJS (fun q => q.fieldIs "id" (.num nid)) db.clinicalNotes = some l.length := by
    rw [hdb]; exact findIdxJS_append_last _ _ _ hl hp
  have hgetD : db.clinicalNotes.getD l.length [] = p := by
    rw [hdb]; exact getD_append_len l p []
  rw [updateClinicalNote_found db nid u now l.length hidx, hgetD]
  refine ⟨rfl, ?_⟩
  show db.clinicalNotes.set l.length _ = _
  rw [hdb, set_append_len]

theorem updateTask_append (db : DB) (l : List Obj) (p : Obj) (tid : Int)
    (u : Obj) (now : Nat)
    (hdb : db.tasks = l ++ [p])
    (hl : ∀ q ∈ l, q.fieldIs "id" (.num tid) = false)
    (hp : p.fieldIs "id" (.num tid) = true) :
    (updateTask db tid u now).1 = .ok (taskMerged p u now) ∧
    (updateTask db tid u now).2.tasks = l ++ [taskMerged p u now] := by
  have hidx : findIdxJS (fun q => q.fieldIs "id" (.num tid)) db.tasks = some l.length := by
    rw [hdb]; exact findIdxJS_append_last _ _ _ hl hp
  have hgetD : db.tasks.getD l.length [] = p := by
    rw [hdb]; exact getD_append_len l p []
  rw [updateTask_found db tid u now l.length hidx, hgetD]
  constructor
  · unfold taskMerged
    rfl
  · show db.tasks.set l.length _ = _
    rw [hdb, set_append_len]
    unfold taskMerged
    rfl

/-- C3: every successful mutating facade operation — each create, update
and delete, deletePatient with its cascade included, and
incrementWorkflowUsage when it finds its workflow — appends exactly one
new AuditEntry to the audit log before resolving, with the action
matching the operation kind (CREATE / UPDATE / DELETE) and the entityId
matching the affected record identifier rendered as a string. -/
theorem C3_audit_per_mutation :
    (∀ (db : DB) (d : Obj) (now : Nat),
      ∃ e, (createPatient db d now).2.auditLog = db.auditLog ++ [e] ∧
        e.action = "CREATE" ∧ e.entityId = (Obj.fetch (createPatient db d now).1 "id").jsString) ∧
    (∀ (db : DB) (pid : String) (u : Obj) (now : Nat),
      isOkE (updatePatient db pid u now).1 = true →
      ∃ e, (updatePatient db pid u now).2.auditLog = db.auditLog ++ [e] ∧
        e.action = "UPDATE" ∧ e.entityId = pid) ∧
    (∀ (db : DB) (pid : String) (now : Nat),
      isOkE (deletePatient db pid now).1 = true →
      ∃ e, (deletePatient db pid now).2.auditLog = db.auditLog ++ [e] ∧
        e.action = "DELETE" ∧ e.entityId = pid) ∧
    (∀ (db : DB) (d : Obj) (now : Nat),
      ∃ e, (createClinicalNote db d now).2.auditLog = db.auditLog ++ [e] ∧
        e.action = "CREATE" ∧ e.entityId = (Obj.fetch (createClinicalNote db d now).1 "id").jsString) ∧
    (∀ (db : DB) (nid : Int) (u : Obj) (now : Nat),
      isOkE (updateClinicalNote db nid u now).1 = true →
      ∃ e, (updateClinicalNote db nid u now).2.auditLog = db.auditLog ++ [e] ∧
        e.action = "UPDATE" ∧ e.entityId = toString nid) ∧
    (∀ (db : DB) (d : Obj) (now : Nat),
      ∃ e, (addAllergy db d now).2.auditLog = db.auditLog ++ [e] ∧
        e.action = "CREATE" ∧ e.entityId = (Obj.fetch (addAllergy db d now).1 "id").jsString) ∧
    (∀ (db : DB) (aid : Int) (now : Nat),
      isOkE (removeAllergy db aid now).1 = true →
      ∃ e, (removeAllergy db aid now).2.auditLog = db.auditLog ++ [e] ∧
        e.action = "DELETE" ∧ e.entityId = toString aid) ∧
    (∀ (db : DB) (d : Obj) (now : Nat),
      ∃ e, (addChronicCondition db d now).2.auditLog = db.auditLog ++ [e] ∧
        e.action = "CREATE" ∧ e.entityId = (Obj.fetch (addChronicCondition db d now).1 "id").jsString) ∧
    (∀ (db : DB) (d : Obj) (now : Nat),
      ∃ e, (createTask db d now).2.auditLog = db.auditLog ++ [e] ∧
        e.action = "CREATE" ∧ e.entityId = (Obj.fetch (createTask db d now).1 "id").jsString) ∧
    (∀ (db : DB) (tid : Int) (u : Obj) (now : Nat),
      isOkE (updateTask db tid u now).1 = true →
      ∃ e, (updateTask db tid u now).2.auditLog = db.auditLog ++ [e] ∧
        e.action = "UPDATE" ∧ e.entityId = toString tid) ∧
    (∀ (db : DB) (d : Obj) (now : Nat),
      ∃ e, (createAppointment db d now).2.auditLog = db.auditLog ++ [e] ∧
        e.action = "CREATE" ∧ e.entityId = (Obj.fetch (createAppointment db d now).1 "id").jsString) ∧
    (∀ (db : DB) (d : Obj) (now : Nat),
      ∃ e, (createReferral db d now).2.auditLog = db.auditLog ++ [e] ∧
        e.action = "CREATE" ∧ e.entityId = (Obj.fetch (createReferral db d now).1 "id").jsString) ∧
    (∀ (db : DB) (wid : Int) (now : Nat),
      ((incrementWorkflowUsage db wid now).1).isSome = true →
      ∃ e, (incrementWorkflowUsage db wid now).2.auditLog = db.auditLog ++ [e] ∧
        e.action = "UPDATE" ∧ e.entityId = toString wid) := by
  refine ⟨fun db d now => ⟨_, rfl, rfl, rfl⟩, ?_, ?_, fun db d now => ⟨_, rfl, rfl, rfl⟩,
    ?_, fun db d now => ⟨_, rfl, rfl, rfl⟩, ?_, fun db d now => ⟨_, rfl, rfl, rfl⟩,
    fun db d now => ⟨_, rfl, rfl, rfl⟩, ?_, fun db d now => ⟨_, rfl, rfl, rfl⟩,
    fun db d now => ⟨_, rfl, rfl, rfl⟩, ?_⟩
  · intro db pid u now h
    cases hidx : findIdxJS (fun p => p.fieldIs "id" (.str pid)) db.patients with
    | none => simp [updatePatient, hidx, isOkE] at h
    | some i =>
      rw [updatePatient_found db pid u now i hidx]
      exact ⟨_, rfl, rfl, rfl⟩
  · intro db pid now h
    cases hidx : findIdxJS (fun p => p.fieldIs "id" (.str pid)) db.patients with
    | none => simp [deletePatient, hidx, isOkE] at h
    | some i =>
      rw [deletePatient_found db pid now i hidx]
      exact ⟨_, rfl, rfl, rfl⟩
  · intro db nid u now h
    cases hidx : findIdxJS (fun n => n.fieldIs "id" (.num nid)) db.clinicalNotes with
    | none => simp [updateClinicalNote, hidx, isOkE] at h
    | some i =>
      rw [updateClinicalNote_found db nid u now i hidx]
      exact ⟨_, rfl, rfl, rfl⟩
  · intro db aid now h
    cases hidx : findIdxJS (fun a => a.fieldIs "id" (.num aid)) db.allergies with
    | none => simp [removeAllergy, hidx, isOkE] at h
    | some i =>
      rw [removeAllergy_found db aid now i hidx]
      exact ⟨_, rfl, rfl, rfl⟩
  · intro db tid u now h
    cases hidx : findIdxJS (fun t => t.fieldIs "id" (.num tid)) db.tasks with
    | none => simp [updateTask, hidx, isOkE] at h
    | some i =>
      rw [updateTask_found db tid u now i hidx]
      exact ⟨_, rfl, rfl, rfl⟩
  · intro db wid now h
    cases hidx : findIdxJS (fun w => w.fieldIs "id" (.num wid)) db.workflows with
    | none => simp [incrementWorkflowUsage, hidx] at h
    | some i =>
      rw [incrementWorkflowUsage_found db wid now i hidx]
      exact ⟨_, rfl, rfl, rfl⟩

/-- Witness for C3: one concrete successful call of each operation whose
success is conditional, showing the single appended audit entry. -/
theorem C3_witness :
    (∃ e, (updatePatient initDB "P20250001" [] 3).2.auditLog = initDB.auditLog ++ [e] ∧
      e.action = "UPDATE" ∧ e.entityId = "P20250001") ∧
    (∃ e, (deletePatient initDB "P20250001" 3).2.auditLog = initDB.auditLog ++ [e] ∧
      e.action = "DELETE" ∧ e.entityId = "P20250001") ∧
    (∃ e, (updateClinicalNote (createClinicalNote initDB
        [("patientId", .str "P20250001")] 1).2 1 [] 2).2.auditLog
        = (createClinicalNote initDB [("patientId", .str "P20250001")] 1).2.auditLog ++ [e] ∧
      e.action = "UPDATE" ∧ e.entityId = toString (1 : Int)) ∧
    (∃ e, (removeAllergy initDB 2 3).2.auditLog = initDB.auditLog ++ [e] ∧
      e.action = "DELETE" ∧ e.entityId = toString (2 : Int)) ∧
    (∃ e, (updateTask (createTask initDB [("title", .str "T")] 1).2 1 [] 2).2.auditLog
        = (createTask initDB [("title", .str "T")] 1).2.auditLog ++ [e] ∧
      e.action = "UPDATE" ∧ e.entityId = toString (1 : Int)) ∧
    (∃ e, (incrementWorkflowUsage initDB 3 4).2.auditLog = initDB.auditLog ++ [e] ∧
      e.action = "UPDATE" ∧ e.entityId = toString (3 : Int)) := by
  have h := C3_audit_per_mutation
  exact ⟨h.2.1 initDB "P20250001" [] 3 (by decide),
    h.2.2.1 initDB "P20250001" 3 (by decide),
    h.2.2.2.2.1 (createClinicalNote initDB [("patientId", .str "P20250001")] 1).2 1 [] 2 (by decide),
    h.2.2.2.2.2.2.1 initDB 2 3 (by decide),
    h.2.2.2.2.2.2.2.2.2.1 (createTask initDB [("title", .str "T")] 1).2 1 [] 2 (by decide),
    h.2.2.2.2.2.2.2.2.2.2.2.2 initDB 3 4 (by decide)⟩


/-- C7: for each entity with an update operation (Patient, ClinicalNote,
Task) and every create→update→update sequence on it, both updates
succeed, the final resolved record reflects the shallow merge of the two
updates in call order, and applying the same update twice yields the same
stored state as applying it once — except for the timestamp field the
update stamps (`updatedAt`, resp. `completedAt` for tasks).  The created
record is addressed by its assigned identifier (fresh in the store), and
the updates do not themselves rewrite `id`, matching the spec's
id-immutability. -/
theorem C7_update_merge_semantics :
    (∀ (db : DB) (d u1 u2 : Obj) (t0 t1 t2 : Nat) (pid : String),
      Obj.get (createPatient db d t0).1 "id" = some (.str pid) →
      (∀ q ∈ db.patients, q.fieldIs "id" (.str pid) = false) →
      Obj.get u1 "id" = none →
      ∃ r1 r2,
        (updatePatient (createPatient db d t0).2 pid u1 t1).1 = .ok r1 ∧
        (updatePatient (updatePatient (createPatient db d t0).2 pid u1 t1).2 pid u2 t2).1 = .ok r2 ∧
        (∀ k, k ≠ "updatedAt" →
          Obj.get r2 k = Obj.get (Obj.spread (Obj.spread (createPatient db d t0).1 u1) u2) k) ∧
        (u1 = u2 → ∀ k, k ≠ "updatedAt" → Obj.get r2 k = Obj.get r1 k)) ∧
    (∀ (db : DB) (d u1 u2 : Obj) (t0 t1 t2 : Nat) (nid : Int),
      Obj.get (createClinicalNote db d t0).1 "id" = some (.num nid) →
      (∀ q ∈ db.clinicalNotes, q.fieldIs "id" (.num nid) = false) →
      Obj.get u1 "id" = none →
      ∃ r1 r2,
        (updateClinicalNote (createClinicalNote db d t0).2 nid u1 t1).1 = .ok r1 ∧
        (updateClinicalNote (updateClinicalNote (createClinicalNote db d t0).2 nid u1 t1).2 nid u2 t2).1 = .ok r2 ∧
        (∀ k, k ≠ "updatedAt" →
          Obj.get r2 k = Obj.get (Obj.spread (Obj.spread (createClinicalNote db d t0).1 u1) u2) k) ∧
        (u1 = u2 → ∀ k, k ≠ "updatedAt" → Obj.get r2 k = Obj.get r1 k)) ∧
    (∀ (db : DB) (d u1 u2 : Obj) (t0 t1 t2 : Nat) (tid : Int),
      Obj.get (createTask db d t0).1 "id" = some (.num tid) →
      (∀ q ∈ db.tasks, q.fieldIs "id" (.num tid) = false) →
      Obj.get u1 "id" = none →
      ∃ r1 r2,
        (updateTask (createTask db d t0).2 tid u1 t1).1 = .ok r1 ∧
        (updateTask (updateTask (createTask db d t0).2 tid u1 t1).2 tid u2 t2).1 = .ok r2 ∧
        (∀ k, k ≠ "completedAt" →
          Obj.get r2 k = Obj.get (Obj.spread (Obj.spread (createTask db d t0).1 u1) u2) k) ∧
        (u1 = u2 → ∀ k, k ≠ "completedAt" → Obj.get r2 k = Obj.get r1 k)) := by
  refine ⟨?_, ?_, ?_⟩
  · intro db d u1 u2 t0 t1 t2 pid hid0 hfresh hu1
    have hsplit0 : (createPatient db d t0).2.patients =
        db.patients ++ [(createPatient db d t0).1] := rfl
    have hf0 : ((createPatient db d t0).1).fieldIs "id" (.str pid) = true := by
      simp [Obj.fieldIs, hid0]
    obtain ⟨hok1, hpat1⟩ := updatePatient_append _ db.patients _ pid u1 t1 hsplit0 hfresh hf0
    have hid1 : Obj.get (Obj.put (Obj.spread (createPatient db d t0).1 u1)
        "updatedAt" (.date t1)) "id" = some (.str pid) := by
      rw [Obj.get_put_ne _ _ _ _ (by decide : ("id" : String) ≠ "updatedAt"),
        Obj.get_spread_of_none _ _ _ hu1]
      exact hid0
    have hf1 : (Obj.put (Obj.spread (createPatient db d t0).1 u1)
        "updatedAt" (.date t1)).fieldIs "id" (.str pid) = true := by
      simp [Obj.fieldIs, hid1]
    obtain ⟨hok2, hpat2⟩ := updatePatient_append _ db.patients _ pid u2 t2 hpat1 hfresh hf1
    refine ⟨_, _, hok1, hok2, ?_, ?_⟩
    · intro k hk
      rw [Obj.get_put_ne _ _ _ _ hk]
      exact Obj.get_spread_put _ _ _ _ _ hk
    · rintro rfl k hk
      rw [Obj.get_put_ne _ _ _ _ hk, Obj.get_put_ne _ _ _ _ hk,
        Obj.get_spread_put _ _ _ _ _ hk]
      exact Obj.get_spread_spread_self _ _ _
  · intro db d u1 u2 t0 t1 t2 nid hid0 hfresh hu1
    have hsplit0 : (createClinicalNote db d t0).2.clinicalNotes =
        db.clinicalNotes ++ [(createClinicalNote db d t0).1] := rfl
    have hf0 : ((createClinicalNote db d t0).1).fieldIs "id" (.num nid) = true := by
      simp [Obj.fieldIs, hid0]
    obtain ⟨hok1, hnote1⟩ := updateClinicalNote_append _ db.clinicalNotes _ nid u1 t1 hsplit0 hfresh hf0
    have hid1 : Obj.get (Obj.put (Obj.spread (createClinicalNote db d t0).1 u1)
        "updatedAt" (.date t1)) "id" = some (.num nid) := by
      rw [Obj.get_put_ne _ _ _ _ (by decide : ("id" : String) ≠ "updatedAt"),
        Obj.get_spread_of_none _ _ _ hu1]
      exact hid0
    have hf1 : (Obj.put (Obj.spread (createClinicalNote db d t0).1 u1)
        "updatedAt" (.date t1)).fieldIs "id" (.num nid) = true := by
      simp [Obj.fieldIs, hid1]
    obtain ⟨hok2, hnote2⟩ := updateClinicalNote_append _ db.clinicalNotes _ nid u2 t2 hnote1 hfresh hf1
    refine ⟨_, _, hok1, hok2, ?_, ?_⟩
    · intro k hk
      rw [Obj.get_put_ne _ _ _ _ hk]
      exact Obj.get_spread_put _ _ _ _ _ hk
    · rintro rfl k hk
      rw [Obj.get_put_ne _ _ _ _ hk, Obj.get_put_ne _ _ _ _ hk,
        Obj.get_spread_put _ _ _ _ _ hk]
      exact Obj.get_spread_spread_self _ _ _
  · intro db d u1 u2 t0 t1 t2 tid hid0 hfresh hu1
    have hsplit0 : (createTask db d t0).2.tasks =
        db.tasks ++ [(createTask db d t0).1] := rfl
    have hf0 : ((createTask db d t0).1).fieldIs "id" (.num tid) = true := by
      simp [Obj.fieldIs, hid0]
    obtain ⟨hok1, htask1⟩ := updateTask_append _ db.tasks _ tid u1 t1 hsplit0 hfresh hf0
    have hid1 : Obj.get (taskMerged (createTask db d t0).1 u1 t1) "id" = some (.num tid) := by
      rw [get_taskMerged_ne _ _ _ _ (by decide : ("id" : String) ≠ "completedAt"),
        Obj.get_spread_of_none _ _ _ hu1]
      exact hid0
    have hf1 : (taskMerged (createTask db d t0).1 u1 t1).fieldIs "id" (.num tid) = true := by
      simp [Obj.fieldIs, hid1]
    obtain ⟨hok2, htask2⟩ := updateTask_append _ db.tasks _ tid u2 t2 htask1 hfresh hf1
    refine ⟨_, _, hok1, hok2, ?_, ?_⟩
    · intro k hk
      rw [get_taskMerged_ne _ _ _ _ hk]
      exact get_spread_taskMerged _ _ _ _ _ hk
    · rintro rfl k hk
      rw [get_taskMerged_ne _ _ _ _ hk, get_taskMerged_ne _ _ _ _ hk,
        get_spread_taskMerged _ _ _ _ _ hk]
      exact Obj.get_spread_spread_self _ _ _

/-- Witness for C7: concrete create→update→update chains on each of the
three updatable entities. -/
theorem C7_witness :
    (∃ r1 r2,
      (updatePatient (createPatient initDB [("firstName", Val.str "Ada")] 100).2
          ("P" ++ toString 100) [("phone", Val.str "1")] 101).1 = .ok r1 ∧
      (updatePatient (updatePatient (createPatient initDB [("firstName", Val.str "Ada")] 100).2
          ("P" ++ toString 100) [("phone", Val.str "1")] 101).2
          ("P" ++ toString 100) [("phone", Val.str "2")] 102).1 = .ok r2 ∧
      (∀ k, k ≠ "updatedAt" →
        Obj.get r2 k = Obj.get (Obj.spread (Obj.spread
          (createPatient initDB [("firstName", Val.str "Ada")] 100).1
          [("phone", Val.str "1")]) [("phone", Val.str "2")]) k) ∧
      (([("phone", Val.str "1")] : Obj) = [("phone", Val.str "2")] →
        ∀ k, k ≠ "updatedAt" → Obj.get r2 k = Obj.get r1 k)) ∧
    (∃ r1 r2,
      (updateClinicalNote (createClinicalNote initDB [("content", Val.str "hello")] 100).2
          1 [("content", Val.str "edit")] 101).1 = .ok r1 ∧
      (updateClinicalNote (updateClinicalNote
          (createClinicalNote initDB [("content", Val.str "hello")] 100).2
          1 [("content", Val.str "edit")] 101).2 1 [("content", Val.str "edit")] 102).1 = .ok r2 ∧
      (∀ k, k ≠ "updatedAt" →
        Obj.get r2 k = Obj.get (Obj.spread (Obj.spread
          (createClinicalNote initDB [("content", Val.str "hello")] 100).1
          [("content", Val.str "edit")]) [("content", Val.str "edit")]) k) ∧
      (([("content", Val.str "edit")] : Obj) = [("content", Val.str "edit")] →
        ∀ k, k ≠ "updatedAt" → Obj.get r2 k = Obj.get r1 k)) ∧
    (∃ r1 r2,
      (updateTask (createTask initDB [("title", Val.str "T")] 100).2
          1 [("status", Val.str "completed")] 101).1 = .ok r1 ∧
      (updateTask (updateTask (createTask initDB [("title", Val.str "T")] 100).2
          1 [("status", Val.str "completed")] 101).2 1 [("status", Val.str "completed")] 102).1 = .ok r2 ∧
      (∀ k, k ≠ "completedAt" →
        Obj.get r2 k = Obj.get (Obj.spread (Obj.spread
          (createTask initDB [("title", Val.str "T")] 100).1
          [("status", Val.str "completed")]) [("status", Val.str "completed")]) k) ∧
      (([("status", Val.str "completed")] : Obj) = [("status", Val.str "completed")] →
        ∀ k, k ≠ "completedAt" → Obj.get r2 k = Obj.get r1 k)) := by
  refine ⟨?_, ?_, ?_⟩
  · exact C7_update_merge_semantics.1 initDB [("firstName", Val.str "Ada")]
      [("phone", Val.str "1")] [("phone", Val.str "2")] 100 101 102
      ("P" ++ toString 100) (by decide) (by decide) rfl
  · exact C7_update_merge_semantics.2.1 initDB [("content", Val.str "hello")]
      [("content", Val.str "edit")] [("content", Val.str "edit")] 100 101 102 1
      (by decide) (by decide) rfl
  · exact C7_update_merge_semantics.2.2 initDB [("title", Val.str "T")]
      [("status", Val.str "completed")] [("status", Val.str "completed")] 100 101 102 1
      (by decide) (by decide) rfl


/-! ## Search lemmas -/

/-- The pure four-field match that `searchPatients` computes on a patient
whose four searched fields are strings (false on any patient violating
that precondition — such a patient makes the real callback throw). -/
def matchesFields (p : Obj) (lowerQuery : String) : Bool :=
  match Obj.get p "firstName", Obj.get p "lastName", Obj.get p "id", Obj.get p "email" with
  | some (.str f), some (.str l), some (.str i), some (.str e) =>
    strIncludes f.toLower lowerQuery || strIncludes l.toLower lowerQuery ||
    strIncludes i.toLower lowerQuery || strIncludes e.toLower lowerQuery
  | _, _, _, _ => false

theorem matchesQuery_eq_ok (p : Obj) (lq : String) (f l i e : String)
    (hf : Obj.get p "firstName" = some (.str f))
    (hl : Obj.get p "lastName" = some (.str l))
    (hi : Obj.get p "id" = some (.str i))
    (he : Obj.get p "email" = some (.str e)) :
    matchesQuery p lq = .ok (matchesFields p lq) := by
  unfold matchesQuery matchesFields
  simp only [Obj.fetch, hf, hl, hi, he, Option.getD_some, Val.toLowerCaseJS]
  by_cases h1 : strIncludes f.toLower lq <;>
    by_cases h2 : strIncludes l.toLower lq <;>
      by_cases h3 : strIncludes i.toLower lq <;>
        by_cases h4 : strIncludes e.toLower lq <;>
          simp [h1, h2, h3, h4]

theorem filterE_ok_of_total (f : α → Except String Bool) (g : α → Bool) (l : List α)
    (h : ∀ a ∈ l, f a = .ok (g a)) :
    filterE f l = .ok (l.filter g) := by
  induction l with
  | nil => rfl
  | cons a t ih =>
    have ha := h a (List.mem_cons_self a t)
    have ht := ih (fun x hx => h x (List.mem_cons_of_mem a hx))
    by_cases hg : g a <;> simp [filterE, ha, ht, List.filter_cons, hg]

theorem filterE_error_append (f : α → Except String Bool) (l1 l2 : List α)
    (x : α) (msg : String)
    (h1 : ∀ a ∈ l1, ∃ b, f a = .ok b) (hx : f x = .error msg) :
    filterE f (l1 ++ x :: l2) = .error msg := by
  induction l1 with
  | nil => simp [filterE, hx]
  | cons a t ih =>
    obtain ⟨b, hb⟩ := h1 a (List.mem_cons_self a t)
    have ht := ih (fun y hy => h1 y (List.mem_cons_of_mem a hy))
    simp [filterE, hb, ht]

/-- C10: `searchPatients(query)` returns, in store order, exactly the
patients whose firstName, lastName, id or email contains the query
case-insensitively — under the precondition that every stored patient
carries string firstName, lastName, id and email fields; and, because the
store performs no validation, there is a reachable state containing a
patient created without an email field — the seeded store after
`createPatient()` with empty data — in which every `searchPatients` call
fails with a TypeError instead of returning the matching records. -/
theorem C10_searchPatients (db : DB) (q : String)
    (h : ∀ p ∈ db.patients, ∃ f l i e : String,
      Obj.get p "firstName" = some (.str f) ∧ Obj.get p "lastName" = some (.str l) ∧
      Obj.get p "id" = some (.str i) ∧ Obj.get p "email" = some (.str e)) :
    searchPatients db q = .ok (db.patients.filter (fun p => matchesFields p q.toLower)) ∧
    (∀ (t : Nat) (q2 : String),
      searchPatients (createPatient initDB [] t).2 q2 =
        .error "TypeError: toLowerCase is not a function") := by
  constructor
  · unfold searchPatients
    refine filterE_ok_of_total _ _ _ ?_
    intro p hp
    obtain ⟨f, l, i, e, hf, hl, hi, he⟩ := h p hp
    exact matchesQuery_eq_ok p q.toLower f l i e hf hl hi he
  · intro t q2
    have hnofn : Obj.get (createPatient initDB [] t).1 "firstName" = none := by
      have hrec : (createPatient initDB [] t).1 =
          Obj.put (Obj.put (Obj.put (Obj.spread [("id", Val.str ("P" ++ toString t))] [])
            "status" (.str "active")) "createdAt" (.date t)) "updatedAt" (.date t) := rfl
      rw [hrec,
        Obj.get_put_ne _ _ _ _ (by decide : ("firstName" : String) ≠ "updatedAt"),
        Obj.get_put_ne _ _ _ _ (by decide : ("firstName" : String) ≠ "createdAt"),
        Obj.get_put_ne _ _ _ _ (by decide : ("firstName" : String) ≠ "status")]
      rfl
    have hx : matchesQuery (createPatient initDB [] t).1 q2.toLower =
        .error "TypeError: toLowerCase is not a function" := by
      unfold matchesQuery
      simp only [Obj.fetch, hnofn, Option.getD_none, Val.toLowerCaseJS]
    have hsplit : (createPatient initDB [] t).2.patients =
        [seedPatientJames, seedPatientEmily, seedPatientSarah] ++
          ((createPatient initDB [] t).1 :: []) := rfl
    show filterE (fun p => matchesQuery p q2.toLower) (createPatient initDB [] t).2.patients = _
    rw [hsplit]
    refine filterE_error_append _ _ _ _ _ ?_ hx
    intro a ha
    have hmem : a = seedPatientJames ∨ a = seedPatientEmily ∨ a = seedPatientSarah := by
      simpa using ha
    rcases hmem with rfl | rfl | rfl
    · exact ⟨_, matchesQuery_eq_ok _ _ "James" "Martinez" "P20250002"
        "james.martinez@email.com" (by decide) (by decide) (by decide) (by decide)⟩
    · exact ⟨_, matchesQuery_eq_ok _ _ "Emily" "Chen" "P20250003"
        "emily.chen@email.com" (by decide) (by decide) (by decide) (by decide)⟩
    · exact ⟨_, matchesQuery_eq_ok _ _ "Sarah" "Johnson" "P20250001"
        "sarah.johnson@email.com" (by decide) (by decide) (by decide) (by decide)⟩

/-- Witness for C10: a search on the seeded store returns the filtered
matches; after creating a patient from empty data, the same search
throws. -/
theorem C10_witness :
    searchPatients initDB "chen" =
      .ok (initDB.patients.filter (fun p => matchesFields p ("chen" : String).toLower)) ∧
    searchPatients (createPatient initDB [] 42).2 "chen" =
      .error "TypeError: toLowerCase is not a function" := by
  have hh : ∀ p ∈ initDB.patients, ∃ f l i e : String,
      Obj.get p "firstName" = some (.str f) ∧ Obj.get p "lastName" = some (.str l) ∧
      Obj.get p "id" = some (.str i) ∧ Obj.get p "email" = some (.str e) := by
    intro p hp
    have hmem : p = seedPatientJames ∨ p = seedPatientEmily ∨ p = seedPatientSarah := by
      simpa [initDB] using hp
    rcases hmem with rfl | rfl | rfl
    · exact ⟨"James", "Martinez", "P20250002", "james.martinez@email.com",
        by decide, by decide, by decide, by decide⟩
    · exact ⟨"Emily", "Chen", "P20250003", "emily.chen@email.com",
        by decide, by decide, by decide, by decide⟩
    · exact ⟨"Sarah", "Johnson", "P20250001", "sarah.johnson@email.com",
        by decide, by decide, by decide, by decide⟩
  exact ⟨(C10_searchPatients initDB "chen" hh).1,
    (C10_searchPatients initDB "chen" hh).2 42 "chen"⟩


end MediFlow
